import Mathlib

/-!
# ConnectFlows sync engine — verification of the reconciliation/sync core

Shallow embedding of the contact reconciliation and synchronization engine
of `src/app.js`:

* the legacy engine `performSync` (lines 214-303): fetch contacts from
  Salesforce and HubSpot, match by email, detect conflicts, persist a
  sync-log lifecycle;
* the enterprise engine `RealSyncEngine.performEnterpriseBidirectionalSync`
  (lines 405-536): fetch Salesforce contacts, build a filtered 5-element
  sample list, and (when a HubSpot token is present) propagate the first
  10 contacts to HubSpot with a 200ms pause after each successful write.

External I/O (HTTP fetches, the HubSpot sink, the SQL pool) is modelled by
explicit environments; time is a virtual clock in milliseconds advanced by
caller-supplied call durations and by the 200ms sleep of the engine.
JavaScript truthiness on possibly-missing strings (`null`/`undefined`/`""`
are all falsy) is modelled on `Option String`.
-/

/-- JS truthiness of a possibly-missing string: `null`, `undefined` and the
empty string are falsy. -/
def strTruthy : Option String → Bool
  | none => false
  | some s => s ≠ ""

/-- JS `a || d` for a possibly-missing string `a` and a string default `d`:
returns `d` when `a` is missing or empty. -/
def jsOr (o : Option String) (d : String) : String :=
  match o with
  | none => d
  | some s => if s = "" then d else s

/-- JS `String.prototype.trim`: drop leading and trailing whitespace.
Stated over the character list so that it is structurally recursive and
evaluates inside the kernel. -/
def jsTrim (s : String) : String :=
  ⟨((s.data.dropWhile Char.isWhitespace).reverse.dropWhile Char.isWhitespace).reverse⟩

/-- Helper for `jsIncludes`: does `pat` occur as a contiguous sublist? -/
def containsAux (pat : List Char) : List Char → Bool
  | [] => pat.isEmpty
  | c :: cs => List.isPrefixOf pat (c :: cs) || containsAux pat cs

/-- JS `String.prototype.includes`: `pat` occurs as a substring of `s`. -/
def jsIncludes (s pat : String) : Bool :=
  containsAux pat.data s.data

/-! ## Legacy engine: normalized contacts and reconciliation

`fetchSalesforceContacts` / `fetchHubSpotContacts` (app.js lines 166-211)
normalize each raw record to `{id, name, email, phone, company, source}`.
The name joins the first and last name fields (defaulted to empty) with
a single space and trims the result; email and phone pass through
unchanged (possibly null); company defaults to the empty string. -/

/-- A normalized contact as produced by the two fetch functions.
`email`/`phone` are `Option` because the raw API fields can be null;
`name` and `company` are always strings by construction. -/
structure Contact where
  id : String
  name : String
  email : Option String
  phone : Option String
  company : String
  source : String
deriving Repr, DecidableEq

/-- A raw Salesforce record as queried by `fetchSalesforceContacts`
(fields Id, FirstName, LastName, Email, Phone, Account.Name). -/
structure SFRawContact where
  Id : String
  FirstName : Option String
  LastName : Option String
  Email : Option String
  Phone : Option String
  AccountName : Option String
deriving Repr, DecidableEq

/-- Normalization in `fetchSalesforceContacts` (app.js lines 179-186). -/
def normalizeSalesforce (c : SFRawContact) : Contact :=
  { id := c.Id
    name := jsTrim ((c.FirstName.getD "") ++ " " ++ (c.LastName.getD ""))
    email := c.Email
    phone := c.Phone
    company := c.AccountName.getD ""
    source := "salesforce" }

/-- A raw HubSpot record as fetched by `fetchHubSpotContacts`
(properties firstname, lastname, email, phone, company). -/
structure HSRawContact where
  id : String
  firstname : Option String
  lastname : Option String
  email : Option String
  phone : Option String
  company : Option String
deriving Repr, DecidableEq

/-- Normalization in `fetchHubSpotContacts` (app.js lines 203-210). -/
def normalizeHubSpot (c : HSRawContact) : Contact :=
  { id := c.id
    name := jsTrim ((c.firstname.getD "") ++ " " ++ (c.lastname.getD ""))
    email := c.email
    phone := c.phone
    company := c.company.getD ""
    source := "hubspot" }

/-- The per-pair conflict test of `performSync` (app.js lines 239-242):
raw string inequality on name, phone and company — no trimming happens at
comparison time. -/
def hasConflict (sf hs : Contact) : Bool :=
  (sf.name != hs.name) || (sf.phone != hs.phone) || (sf.company != hs.company)

/-- One entry of the `conflicts` array of `performSync` (lines 245-249):
the shared email plus both full contacts; no field names are recorded. -/
structure ConflictRecord where
  email : Option String
  salesforce : Contact
  hubspot : Contact
deriving Repr, DecidableEq

/-- One entry of the `processedContacts` array of `performSync`
(lines 252-270). `hubspot_id` is `some` exactly for matched pairs.
The constant `user_id` column is omitted from the model. -/
structure ProcessedContact where
  salesforce_id : String
  hubspot_id : Option String
  email : Option String
  name : String
  phone : Option String
  company : String
deriving Repr, DecidableEq

/-- Body of the `for (const sfContact of salesforceContacts)` loop of
`performSync` (lines 234-272), acting on the accumulated
`(conflicts, processedContacts)` pair: probe the HubSpot list with
`hc.email === sfContact.email`; on a match, push a conflict record when
`hasConflict` holds and push a matched processed contact; otherwise push
a Salesforce-only processed contact. -/
def reconcileStep (hubspotContacts : List Contact)
    (acc : List ConflictRecord × List ProcessedContact) (sf : Contact) :
    List ConflictRecord × List ProcessedContact :=
  match hubspotContacts.find? (fun hc => hc.email == sf.email) with
  | some hm =>
      (if hasConflict sf hm then acc.1 ++ [⟨sf.email, sf, hm⟩] else acc.1,
       acc.2 ++ [⟨sf.id, some hm.id, sf.email, sf.name, sf.phone, sf.company⟩])
  | none =>
      (acc.1, acc.2 ++ [⟨sf.id, none, sf.email, sf.name, sf.phone, sf.company⟩])

/-- The reconciliation phase of `performSync` (lines 230-272): fold the
loop body over the Salesforce list, starting from empty `conflicts` and
`processedContacts`. HubSpot records never probed contribute nothing. -/
def reconcile (salesforceContacts hubspotContacts : List Contact) :
    List ConflictRecord × List ProcessedContact :=
  salesforceContacts.foldl (reconcileStep hubspotContacts) ([], [])

/-! ## Legacy engine: run lifecycle and sync log -/

/-- One SQL write to the `sync_logs` table.
`insertRow` is `createSyncLog` (app.js lines 132-138): INSERT of a fresh
row (its `completed_at` stays NULL). `updateRunRow` is the UPDATE at lines
286-289, which sets the terminal fields and `completed_at = NOW()` on the
row created at run start. -/
inductive LogOp
  | insertRow (status : String) (contactsProcessed : Nat) (conflicts : Nat)
      (errorMessage : Option String)
  | updateRunRow (status : String) (contactsProcessed : Nat) (conflicts : Nat)
deriving Repr, DecidableEq

/-- The value returned by a successful `performSync` (lines 291-296). -/
structure SyncSummary where
  success : Bool
  contactsProcessed : Nat
  conflicts : Nat
  conflictDetails : List ConflictRecord
deriving Repr, DecidableEq

/-- The user row consulted by `performSync` (line 216); only the two token
columns matter to the engine. -/
structure LegacyUser where
  salesforce_token : Option String
  hubspot_token : Option String
deriving Repr, DecidableEq

/-- Function `performSync` (app.js lines 214-303). The two fetches are modelled by
their outcomes (`Except` of an error message, matching the thrown
`Error.message`). Returns the result (or propagated error) together with
the sequence of `sync_logs` writes performed. When both fetches fail the
model surfaces the Salesforce error (the first rejection of the
`Promise.all`). The per-contact upserts into the `contacts` table (lines
275-283) are not modelled; no claim depends on them. -/
def performSync (user : Option LegacyUser)
    (sfFetch hsFetch : Except String (List Contact)) :
    Except String SyncSummary × List LogOp :=
  match user with
  | none => (.error "User not found or CRM accounts not connected", [])
  | some u =>
    if strTruthy u.salesforce_token && strTruthy u.hubspot_token then
      let runStart : LogOp := .insertRow "running" 0 0 none
      match sfFetch with
      | .error e => (.error e, [runStart, .insertRow "error" 0 0 (some e)])
      | .ok sfs =>
        match hsFetch with
        | .error e => (.error e, [runStart, .insertRow "error" 0 0 (some e)])
        | .ok hss =>
          let r := reconcile sfs hss
          (.ok ⟨true, r.2.length, r.1.length, r.1⟩,
           [runStart, .updateRunRow "success" r.2.length r.1.length])
    else (.error "User not found or CRM accounts not connected", [])

/-! ## Enterprise engine: sample list and HubSpot write loop -/

/-- A raw Salesforce record as used by `RealSyncEngine` (queried fields
Id, FirstName, LastName, Email, Phone, Account.Name; Title and Department
are queried but never used). -/
structure SFContact where
  Id : String
  FirstName : Option String
  LastName : Option String
  Email : Option String
  Phone : Option String
  AccountName : Option String
deriving Repr, DecidableEq

/-- The sample filter of `real_sample_contacts` (app.js lines 420-426):
`contact.Email` must be truthy and must not contain any of the four
excluded domains. -/
def emailPassesFilter : Option String → Bool
  | none => false
  | some s =>
      s ≠ "" && !jsIncludes s "edge.com" && !jsIncludes s "burlington.com" &&
        !jsIncludes s "pyramid.net" && !jsIncludes s "dickenson.com"

/-- One entry of `real_sample_contacts` (app.js lines 430-436), with the
`sync_status` field optionally added by the post-sync map at lines
496-499. -/
structure SampleContact where
  name : String
  email : Option String
  company : String
  phone : String
  status : String
  sync_status : Option String
deriving Repr, DecidableEq

/-- Mapping of a filtered Salesforce record to a sample contact
(app.js lines 430-436). -/
def toSampleContact (c : SFContact) : SampleContact :=
  { name := jsTrim ((c.FirstName.getD "") ++ " " ++ (c.LastName.getD ""))
    email := c.Email
    company := jsOr c.AccountName "No Company"
    phone := c.Phone.getD ""
    status := "from_salesforce"
    sync_status := none }

/-- Field `real_sample_contacts` (app.js lines 416-437): filter the fetched
records by `emailPassesFilter`, truncate to 5, and map to the sample
shape. -/
def realSampleContacts (cs : List SFContact) : List SampleContact :=
  ((cs.filter (fun c => emailPassesFilter c.Email)).take 5).map toSampleContact

/-- The properties object sent to HubSpot for one contact (app.js lines
458-467). `last_sync_date` (`new Date().toISOString()`) is modelled as
the virtual-clock value at construction time. -/
structure HubSpotContactData where
  email : String
  firstname : String
  lastname : String
  phone : String
  company : String
  salesforce_contact_id : String
  last_sync_date : Nat
  data_source : String
deriving Repr, DecidableEq

/-- Builds the HubSpot properties object for one Salesforce contact at
virtual time `now` (app.js lines 458-467). -/
def mkHubSpotContactData (c : SFContact) (now : Nat) : HubSpotContactData :=
  { email := c.Email.getD ""
    firstname := c.FirstName.getD ""
    lastname := c.LastName.getD ""
    phone := c.Phone.getD ""
    company := c.AccountName.getD ""
    salesforce_contact_id := c.Id
    last_sync_date := now
    data_source := "ConnectFlows_Salesforce_Sync" }

/-- One HubSpot API call issued by the write loop: the search of
`findContactByEmail`, or a create/update write. -/
inductive SinkCallKind
  | search (email : String)
  | create (data : HubSpotContactData)
  | update (id : String) (data : HubSpotContactData)
deriving Repr, DecidableEq

/-- A sink call with the virtual time at which it was issued. For a
create/update, `ok` records whether the call succeeded (a failed write
throws and is caught by the per-contact handler); a search never throws
(`findContactByEmail` catches errors and returns null). -/
structure CallEvent where
  kind : SinkCallKind
  time : Nat
  ok : Bool
deriving Repr, DecidableEq

/-- Whether an event is a create/update write call (as opposed to a
search). -/
def CallEvent.isWrite (e : CallEvent) : Bool :=
  match e.kind with
  | .search _ => false
  | .create _ => true
  | .update _ _ => true

/-- The write calls of a call trace, in order. -/
def writeEvents (evs : List CallEvent) : List CallEvent :=
  evs.filter (fun e => e.isWrite)

/-- Test double for the HubSpot sink: `search e` is what
`findContactByEmail e` returns (the id of the existing contact, if any);
`writeOk n` says whether the n-th write call of the run succeeds;
`callDur n` is the duration in ms of the n-th sink call of the run. -/
structure SinkEnv where
  search : String → Option String
  writeOk : Nat → Bool
  callDur : Nat → Nat

/-- Mutable state of the enterprise write loop: virtual clock, number of
sink calls and of write calls issued so far, the `created`/`updated`
counters, and the call trace. -/
structure LoopState where
  clock : Nat
  callIdx : Nat
  writeIdx : Nat
  created : Nat
  updated : Nat
  events : List CallEvent
deriving Repr, DecidableEq

/-- The initial state of the write loop. -/
def initLoopState : LoopState := ⟨0, 0, 0, 0, 0, []⟩

/-- Issue one sink call at the current virtual time: the call is appended
to the trace stamped with the current clock, and the clock advances by the
duration of the call (`env.callDur` at the current call index). -/
def recordCall (env : SinkEnv) (st : LoopState) (k : SinkCallKind) (ok : Bool) :
    LoopState :=
  { st with
    clock := st.clock + env.callDur st.callIdx
    callIdx := st.callIdx + 1
    events := st.events ++ [⟨k, st.clock, ok⟩] }

/-- Issue the create/update call for one contact (app.js lines 469-482).
The n-th write call of the run succeeds iff `env.writeOk n`. On success
the matching counter is bumped and `sleep(200)` runs; on failure the
exception is caught by the per-contact handler (line 484), so the counter
and the sleep are both skipped. -/
def doWrite (env : SinkEnv) (st : LoopState) (k : SinkCallKind) : LoopState :=
  let ok := env.writeOk st.writeIdx
  let st2 : LoopState := { recordCall env st k ok with writeIdx := st.writeIdx + 1 }
  if ok then
    let st3 : LoopState := { st2 with clock := st2.clock + 200 }
    match k with
    | .create _ => { st3 with created := st3.created + 1 }
    | _ => { st3 with updated := st3.updated + 1 }
  else st2

/-- One iteration of the enterprise write loop (app.js lines 453-488) for
one candidate contact: skip it unless `contact.Email` is truthy; otherwise
search the sink by email (`findContactByEmail` never throws), build the
HubSpot properties object, then update (if found) or create (if not). -/
def syncOneContact (env : SinkEnv) (st : LoopState) (c : SFContact) : LoopState :=
  match c.Email with
  | none => st
  | some e =>
    if e = "" then st
    else
      let st1 := recordCall env st (.search e) true
      let data := mkHubSpotContactData c st1.clock
      match env.search e with
      | some existingId => doWrite env st1 (.update existingId data)
      | none => doWrite env st1 (.create data)

/-- The enterprise write loop (app.js line 453): iterate
`syncOneContact` over `salesforceContacts.slice(0, 10)`. -/
def writeLoop (env : SinkEnv) (cs : List SFContact) : LoopState :=
  (cs.take 10).foldl (syncOneContact env) initLoopState

/-- The `syncResults` object returned by
`performEnterpriseBidirectionalSync` (app.js lines 414-443). -/
structure SyncResults where
  salesforce_contacts_found : Nat
  real_sample_contacts : List SampleContact
  hubspot_sync_attempted : Bool
  hubspot_created : Nat
  hubspot_updated : Nat
  message : String
deriving Repr, DecidableEq

/-- Method `RealSyncEngine.performEnterpriseBidirectionalSync` (app.js lines
405-507). `sfFetch` is the outcome of `getSalesforceContacts` (an error
there propagates and no sink call is made); `hubspotToken` gates the
write phase by JS truthiness. Returns the result (or propagated error)
together with the sink call trace. -/
def performEnterpriseBidirectionalSync (hubspotToken : Option String)
    (env : SinkEnv) (sfFetch : Except String (List SFContact)) :
    Except String SyncResults × List CallEvent :=
  match sfFetch with
  | .error e => (.error e, [])
  | .ok cs =>
    let base : SyncResults :=
      { salesforce_contacts_found := cs.length
        real_sample_contacts := realSampleContacts cs
        hubspot_sync_attempted := false
        hubspot_created := 0
        hubspot_updated := 0
        message := "Salesforce data loaded successfully" }
    if strTruthy hubspotToken then
      let st := writeLoop env cs
      (.ok { base with
              hubspot_sync_attempted := true
              hubspot_created := st.created
              hubspot_updated := st.updated
              message := "REAL sync complete: " ++ toString st.created ++
                " created, " ++ toString st.updated ++ " updated in HubSpot"
              real_sample_contacts := base.real_sample_contacts.map
                (fun sc => { sc with sync_status := some "synced_to_hubspot" }) },
       st.events)
    else (.ok base, [])

/-- The sample list of a run result (empty when the run failed). -/
def resultSamples : Except String SyncResults → List SampleContact
  | .ok r => r.real_sample_contacts
  | .error _ => []

/-! ## Helper lemmas -/

/-- The per-pair conflict flag is false exactly when name, phone and
company agree as raw strings. -/
lemma hasConflict_eq_false_iff (a b : Contact) :
    hasConflict a b = false ↔
      (a.name = b.name ∧ a.phone = b.phone ∧ a.company = b.company) := by
  simp [hasConflict, and_assoc]

/-- Each loop iteration of the legacy reconciliation appends exactly one
processed contact. -/
lemma reconcileStep_snd_length (hss : List Contact)
    (acc : List ConflictRecord × List ProcessedContact) (sf : Contact) :
    (reconcileStep hss acc sf).2.length = acc.2.length + 1 := by
  unfold reconcileStep
  cases hss.find? (fun hc => hc.email == sf.email) <;> simp

/-- Folding the legacy reconciliation over a Salesforce list adds one
processed contact per Salesforce record. -/
lemma reconcile_foldl_snd_length (hss : List Contact) :
    ∀ (sfs : List Contact) (acc : List ConflictRecord × List ProcessedContact),
      ((sfs.foldl (reconcileStep hss) acc).2).length = acc.2.length + sfs.length := by
  intro sfs
  induction sfs with
  | nil => simp
  | cons a t ih =>
      intro acc
      simp only [List.foldl_cons, ih, reconcileStep_snd_length, List.length_cons]
      omega

/-! ## Concrete contacts used as test inputs -/

/-- A Salesforce-side contact whose phone has a stray leading space. -/
def cxSF : Contact :=
  ⟨"sf1", "Al Smith", some "al@acme.com", some " 555-1234", "Acme", "salesforce"⟩

/-- The HubSpot-side contact matching `cxSF` up to trimming. -/
def cxHS : Contact :=
  ⟨"hs1", "Al Smith", some "al@acme.com", some "555-1234", "Acme", "hubspot"⟩

/-- A HubSpot-only contact (its email is probed by no Salesforce record). -/
def cxOnlyB : Contact := ⟨"hs9", "Bea", some "bea@y.com", none, "", "hubspot"⟩

/-- A Salesforce contact with a missing (null) email. -/
def cxNoEmailSF : Contact := ⟨"sf7", "Ann", none, none, "", "salesforce"⟩

/-- A HubSpot contact with a missing (null) email. -/
def cxNoEmailHS : Contact := ⟨"hs7", "Ann B", none, some "1", "Z", "hubspot"⟩

/-! ## C1 — conflict detection on matched pairs -/

/-- C1 (counterexample): two contacts with equal email whose name, phone
and company are all equal after trimming, for which `performSync`
nevertheless reports a conflict (the phone differs only by a leading
space, and comparison is raw, not post-trim). The claimed "zero conflicts
for trimmed-equal pairs" is false. -/
theorem C1_trimmed_equal_pair_still_conflicts :
    cxHS.email = cxSF.email ∧
    jsTrim cxSF.name = jsTrim cxHS.name ∧
    Option.map jsTrim cxSF.phone = Option.map jsTrim cxHS.phone ∧
    jsTrim cxSF.company = jsTrim cxHS.company ∧
    (reconcile [cxSF] [cxHS]).1 = [⟨some "al@acme.com", cxSF, cxHS⟩] := by
  decide

/-- C1 (amended): for a matched pair (equal email), the conflict check is
raw string equality on name, phone and company — no trimming at
comparison time (only the name was trimmed earlier, by the normalizer).
If all three agree exactly, zero conflicts are reported; otherwise
exactly one conflict record is reported, holding the email and both full
contacts — no set of differing field names exists. Email itself is never
compared. -/
theorem C1_matched_pair_conflicts (a b : Contact) (h : b.email = a.email) :
    reconcile [a] [b] =
      ((if a.name = b.name ∧ a.phone = b.phone ∧ a.company = b.company
        then [] else [⟨a.email, a, b⟩]),
       [⟨a.id, some b.id, a.email, a.name, a.phone, a.company⟩]) := by
  have hfind : List.find? (fun hc => hc.email == a.email) [b] = some b := by
    simp [List.find?, h]
  by_cases hc : a.name = b.name ∧ a.phone = b.phone ∧ a.company = b.company
  · have hcf : hasConflict a b = false := (hasConflict_eq_false_iff a b).mpr hc
    simp [reconcile, reconcileStep, hfind, hcf, hc]
  · have hcf : hasConflict a b = true := by
      cases hcb : hasConflict a b
      · exact absurd ((hasConflict_eq_false_iff a b).mp hcb) hc
      · rfl
    simp [reconcile, reconcileStep, hfind, hcf, hc]

/-- C1 (witness): the amended theorem applied to the concrete pair
`cxSF`/`cxHS`, whose raw phones differ. -/
theorem C1_matched_pair_conflicts_witness :
    cxHS.email = cxSF.email ∧
    reconcile [cxSF] [cxHS] =
      ((if cxSF.name = cxHS.name ∧ cxSF.phone = cxHS.phone ∧
            cxSF.company = cxHS.company
        then [] else [⟨cxSF.email, cxSF, cxHS⟩]),
       [⟨cxSF.id, some cxHS.id, cxSF.email, cxSF.name, cxSF.phone,
         cxSF.company⟩]) :=
  ⟨by decide, C1_matched_pair_conflicts cxSF cxHS (by decide)⟩

/-! ## C2 — fate of List B records never probed -/

/-- C2 (counterexample): reconciling `A = []` against a single HubSpot
record yields no conflicts and no processed contacts at all — the engine
emits no `OnlyInB` result (no such classification exists in the code), so
the claimed "exactly one OnlyInB" is false. -/
theorem C2_empty_A_drops_B_record :
    reconcile [] [cxOnlyB] = ([], []) := by
  decide

/-- C2 (amended): HubSpot records whose email is never probed are dropped
entirely rather than classified: reconciling an empty Salesforce list
against any HubSpot list yields no output at all, and in general every
emitted processed contact originates from a Salesforce record (one per
record), so the output length equals `|A|`, independent of `|B|`. -/
theorem C2_b_only_records_dropped :
    (∀ hss : List Contact, reconcile [] hss = ([], [])) ∧
    (∀ sfs hss : List Contact, (reconcile sfs hss).2.length = sfs.length) := by
  constructor
  · intro hss
    rfl
  · intro sfs hss
    simpa using reconcile_foldl_snd_length hss sfs ([], [])

/-! ## C3 — failing primary fetch -/

/-- C3: when the Salesforce fetch fails with message `e`, `performSync`
aborts: it propagates `e` to the caller unchanged, and the persisted
sync-log writes are the run-start row plus an inserted row with
status `error`, `contacts_processed = 0` and the message verbatim. -/
theorem C3_fetch_failure_aborts_and_logs (u : LegacyUser)
    (hsFetch : Except String (List Contact)) (e : String)
    (h1 : strTruthy u.salesforce_token = true)
    (h2 : strTruthy u.hubspot_token = true) :
    performSync (some u) (.error e) hsFetch =
      (.error e,
       [.insertRow "running" 0 0 none, .insertRow "error" 0 0 (some e)]) := by
  simp [performSync, h1, h2]

/-- C3 (witness): a concrete failing run with the Salesforce error
message of app.js line 175. -/
theorem C3_fetch_failure_aborts_and_logs_witness :
    strTruthy (some "sftok") = true ∧ strTruthy (some "hstok") = true ∧
    performSync (some ⟨some "sftok", some "hstok"⟩)
        (.error "Salesforce API error: 500") (.ok []) =
      (.error "Salesforce API error: 500",
       [.insertRow "running" 0 0 none,
        .insertRow "error" 0 0 (some "Salesforce API error: 500")]) :=
  ⟨by decide, by decide,
   C3_fetch_failure_aborts_and_logs ⟨some "sftok", some "hstok"⟩ (.ok [])
     "Salesforce API error: 500" (by decide) (by decide)⟩

/-! ## C4 — sync-run lifecycle -/

/-- Whether a sync-log write is the terminal in-place UPDATE of the
run-start row. -/
def LogOp.isTerminalUpdate : LogOp → Bool
  | .updateRunRow _ _ _ => true
  | .insertRow _ _ _ _ => false

/-- C4 (counterexample): on a run whose Salesforce fetch fails, the log
trace contains two inserted rows and zero terminal updates: the row
created with status `running` never receives a terminal update, and a
second, separate row (status `error`) is created for the same run. The
claimed "exactly one record, exactly one terminal update" is false. -/
theorem C4_error_run_inserts_second_row :
    ((performSync (some ⟨some "s", some "h"⟩) (.error "boom") (.ok [])).2).countP
        (fun op => op.isTerminalUpdate) = 0 ∧
    ((performSync (some ⟨some "s", some "h"⟩) (.error "boom") (.ok [])).2).countP
        (fun op => !op.isTerminalUpdate) = 2 ∧
    (performSync (some ⟨some "s", some "h"⟩) (.error "boom") (.ok [])).2 =
      [.insertRow "running" 0 0 none, .insertRow "error" 0 0 (some "boom")] := by
  decide

/-- C4 (amended): on a successful run exactly one sync-log row is created
(status `running`) and it receives exactly one terminal update (to
`success`, setting the completion fields); on a run whose fetch step
fails, the `running` row receives no terminal update at all and a second
row with status `error` is inserted instead. -/
theorem C4_run_lifecycle (u : LegacyUser)
    (h1 : strTruthy u.salesforce_token = true)
    (h2 : strTruthy u.hubspot_token = true) :
    (∀ sfs hss : List Contact,
       (performSync (some u) (.ok sfs) (.ok hss)).2 =
         [.insertRow "running" 0 0 none,
          .updateRunRow "success" (reconcile sfs hss).2.length
            (reconcile sfs hss).1.length]) ∧
    (∀ (e : String) (hsFetch : Except String (List Contact)),
       (performSync (some u) (.error e) hsFetch).2 =
         [.insertRow "running" 0 0 none, .insertRow "error" 0 0 (some e)]) ∧
    (∀ (sfs : List Contact) (e : String),
       (performSync (some u) (.ok sfs) (.error e)).2 =
         [.insertRow "running" 0 0 none, .insertRow "error" 0 0 (some e)]) := by
  refine ⟨fun sfs hss => ?_, fun e hsFetch => ?_, fun sfs e => ?_⟩
  · simp [performSync, h1, h2]
  · simp [performSync, h1, h2]
  · simp [performSync, h1, h2]

/-- C4 (witness): the lifecycle characterization applied to a concrete
user, then evaluated on a concrete successful run. -/
theorem C4_run_lifecycle_witness :
    strTruthy (some "s") = true ∧
    (performSync (some ⟨some "s", some "h"⟩) (.ok [cxSF]) (.ok [cxHS])).2 =
      [.insertRow "running" 0 0 none,
       .updateRunRow "success" (reconcile [cxSF] [cxHS]).2.length
         (reconcile [cxSF] [cxHS]).1.length] :=
  ⟨by decide,
   (C4_run_lifecycle ⟨some "s", some "h"⟩ (by decide) (by decide)).1 [cxSF] [cxHS]⟩

/-! ## C8 — contacts without an email -/

/-- C8 (counterexample): a Salesforce contact and a HubSpot contact that
both lack an email are matched by `performSync` (null equals null under
`===`), and the pair is emitted as a matched processed contact (its
`hubspot_id` is set). The claimed "records without email are dropped
before reconciliation and never matched" is false. -/
theorem C8_missing_emails_match :
    cxNoEmailSF.email = none ∧ cxNoEmailHS.email = none ∧
    (reconcile [cxNoEmailSF] [cxNoEmailHS]).2 =
      [⟨"sf7", some "hs7", none, "Ann", none, ""⟩] := by
  decide

/-- C8 (amended): `performSync` does not drop email-less records: a
Salesforce record with missing email always matches a HubSpot record
with missing email and is emitted as a matched pair. Only the enterprise
write loop skips contacts whose email is missing: such a contact
produces no sink call and leaves the loop state untouched. -/
theorem C8_missing_email_behavior (a b : Contact) (c : SFContact)
    (env : SinkEnv) (ha : a.email = none) (hb : b.email = none)
    (hc : c.Email = none) :
    (reconcile [a] [b]).2 =
      [⟨a.id, some b.id, none, a.name, a.phone, a.company⟩] ∧
    writeLoop env [c] = initLoopState := by
  constructor
  · simp [reconcile, reconcileStep, List.find?, ha, hb]
  · simp [writeLoop, syncOneContact, hc]

/-- The sink test double used by concrete runs in which every lookup
misses, every write succeeds, and calls are instantaneous. -/
def cxEnvMiss : SinkEnv := ⟨fun _ => none, fun _ => true, fun _ => 0⟩

/-- A Salesforce record (enterprise shape) with a missing email. -/
def cxSFNoEmail : SFContact := ⟨"sf8", some "Cal", none, none, none, none⟩

/-- C8 (witness): the amended theorem applied to the concrete email-less
contacts. -/
theorem C8_missing_email_behavior_witness :
    cxNoEmailSF.email = none ∧ cxNoEmailHS.email = none ∧
    cxSFNoEmail.Email = none ∧
    ((reconcile [cxNoEmailSF] [cxNoEmailHS]).2 =
      [⟨cxNoEmailSF.id, some cxNoEmailHS.id, none, cxNoEmailSF.name,
        cxNoEmailSF.phone, cxNoEmailSF.company⟩] ∧
     writeLoop cxEnvMiss [cxSFNoEmail] = initLoopState) :=
  ⟨by decide, by decide, by decide,
   C8_missing_email_behavior cxNoEmailSF cxNoEmailHS cxSFNoEmail cxEnvMiss
     (by decide) (by decide) (by decide)⟩

/-! ## Enterprise loop: trace and pacing lemmas -/

/-- The pacing relation between two successive write calls: if the
earlier call succeeded, the later one is issued at least 200ms after it
(the enforced sleep). -/
def spacedRel (a b : CallEvent) : Prop := a.ok = true → a.time + 200 ≤ b.time

/-- Filtering a concatenated trace for writes distributes. -/
lemma writeEvents_append (l₁ l₂ : List CallEvent) :
    writeEvents (l₁ ++ l₂) = writeEvents l₁ ++ writeEvents l₂ := by
  simp [writeEvents]

/-- A search call contributes no write event. -/
lemma recordCall_search_events (env : SinkEnv) (st : LoopState) (e : String)
    (ok : Bool) :
    writeEvents (recordCall env st (.search e) ok).events = writeEvents st.events := by
  simp [recordCall, writeEvents, CallEvent.isWrite]

/-- Issuing a call via `recordCall` only advances the clock. -/
lemma recordCall_clock_ge (env : SinkEnv) (st : LoopState) (k : SinkCallKind)
    (ok : Bool) : st.clock ≤ (recordCall env st k ok).clock := by
  simp [recordCall]

/-- The trace after `doWrite`: one write event stamped with the clock at
issue time, succeeding iff `env.writeOk` says so at the current write
index. -/
lemma doWrite_events (env : SinkEnv) (st : LoopState) (k : SinkCallKind) :
    (doWrite env st k).events =
      st.events ++ [⟨k, st.clock, env.writeOk st.writeIdx⟩] := by
  unfold doWrite recordCall
  cases h : env.writeOk st.writeIdx <;> cases k <;> simp [h]

/-- Issuing a write via `doWrite` only advances the clock. -/
lemma doWrite_clock_ge (env : SinkEnv) (st : LoopState) (k : SinkCallKind) :
    st.clock ≤ (doWrite env st k).clock := by
  unfold doWrite recordCall
  cases h : env.writeOk st.writeIdx <;> cases k <;> simp [h] <;> omega

/-- After a successful write the clock has advanced by the call duration
plus the enforced 200ms sleep. -/
lemma doWrite_clock_success (env : SinkEnv) (st : LoopState) (k : SinkCallKind)
    (h : env.writeOk st.writeIdx = true) :
    (doWrite env st k).clock = st.clock + env.callDur st.callIdx + 200 := by
  unfold doWrite recordCall
  cases k <;> simp [h]

/-- Loop invariant for the pacing claim: the write events seen so far are
chained by `spacedRel`, and if the most recent write succeeded the clock
has already moved at least 200ms past it. -/
def PacedInv (st : LoopState) : Prop :=
  List.Chain' spacedRel (writeEvents st.events) ∧
  ∀ a ∈ (writeEvents st.events).getLast?, a.ok = true → a.time + 200 ≤ st.clock

/-- The initial loop state is trivially paced. -/
lemma pacedInv_init : PacedInv initLoopState := by
  constructor <;> simp [initLoopState, writeEvents]

/-- A search call preserves the pacing invariant. -/
lemma pacedInv_recordCall_search (env : SinkEnv) (st : LoopState) (e : String)
    (ok : Bool) (h : PacedInv st) :
    PacedInv (recordCall env st (.search e) ok) := by
  obtain ⟨hchain, hlast⟩ := h
  refine ⟨by rwa [recordCall_search_events], ?_⟩
  intro a ha hok
  rw [recordCall_search_events] at ha
  exact le_trans (hlast a ha hok) (recordCall_clock_ge env st _ ok)

/-- A write call preserves the pacing invariant: it is issued at the
current clock, which (by the invariant) is at least 200ms past the last
successful write, and on success the sleep pushes the clock 200ms past
it in turn. -/
lemma pacedInv_doWrite (env : SinkEnv) (st : LoopState) (k : SinkCallKind)
    (hk : CallEvent.isWrite ⟨k, st.clock, env.writeOk st.writeIdx⟩ = true)
    (h : PacedInv st) : PacedInv (doWrite env st k) := by
  obtain ⟨hchain, hlast⟩ := h
  have hwe : writeEvents (doWrite env st k).events =
      writeEvents st.events ++ [⟨k, st.clock, env.writeOk st.writeIdx⟩] := by
    rw [doWrite_events, writeEvents_append]
    simp [writeEvents, hk]
  constructor
  · rw [hwe, List.chain'_append]
    refine ⟨hchain, List.chain'_singleton _, ?_⟩
    intro a ha b hb
    simp only [List.head?_cons, Option.mem_def, Option.some.injEq] at hb
    subst hb
    intro hok
    exact hlast a ha hok
  · intro a ha hok
    rw [hwe, List.getLast?_concat] at ha
    simp only [Option.mem_def, Option.some.injEq] at ha
    subst ha
    simp only at hok
    calc st.clock + 200
        = st.clock + 0 + 200 := by omega
      _ ≤ st.clock + env.callDur st.callIdx + 200 := by omega
      _ = (doWrite env st k).clock := (doWrite_clock_success env st k hok).symm

/-- One iteration of the write loop preserves the pacing invariant. -/
lemma pacedInv_syncOne (env : SinkEnv) (c : SFContact) (st : LoopState)
    (h : PacedInv st) : PacedInv (syncOneContact env st c) := by
  cases hE : c.Email with
  | none => simpa [syncOneContact, hE] using h
  | some e =>
    by_cases he : e = ""
    · simpa [syncOneContact, hE, he] using h
    · have h1 := pacedInv_recordCall_search env st e true h
      cases hs : env.search e with
      | some existingId =>
          simpa [syncOneContact, hE, he, hs] using
            pacedInv_doWrite env (recordCall env st (.search e) true)
              (.update existingId
                (mkHubSpotContactData c (recordCall env st (.search e) true).clock))
              rfl h1
      | none =>
          simpa [syncOneContact, hE, he, hs] using
            pacedInv_doWrite env (recordCall env st (.search e) true)
              (.create (mkHubSpotContactData c (recordCall env st (.search e) true).clock))
              rfl h1

/-- The whole write loop preserves the pacing invariant. -/
lemma pacedInv_foldl (env : SinkEnv) (cs : List SFContact) :
    ∀ st : LoopState, PacedInv st →
      PacedInv (cs.foldl (syncOneContact env) st) := by
  induction cs with
  | nil => intro st h; exact h
  | cons c t ih =>
      intro st h
      exact ih _ (pacedInv_syncOne env c st h)

/-! ## Enterprise loop: counting lemmas -/

/-- Loop invariant for the counting claims: the number of write events
equals the running write index, and `created + updated` equals the number
of successful write events. -/
def CountInv (st : LoopState) : Prop :=
  (writeEvents st.events).length = st.writeIdx ∧
  st.created + st.updated = ((writeEvents st.events).filter (fun e => e.ok)).length

/-- The initial loop state satisfies the counting invariant. -/
lemma countInv_init : CountInv initLoopState := by
  constructor <;> simp [initLoopState, writeEvents]

/-- A `doWrite` adds one write event, succeeding iff the counter it bumps
does; so the counting invariant is preserved. -/
lemma countInv_doWrite (env : SinkEnv) (st : LoopState) (k : SinkCallKind)
    (hk : CallEvent.isWrite ⟨k, st.clock, env.writeOk st.writeIdx⟩ = true)
    (h : CountInv st) : CountInv (doWrite env st k) := by
  obtain ⟨hidx, hcnt⟩ := h
  have hwe : writeEvents (doWrite env st k).events =
      writeEvents st.events ++ [⟨k, st.clock, env.writeOk st.writeIdx⟩] := by
    rw [doWrite_events, writeEvents_append]
    simp [writeEvents, hk]
  have hidx2 : (doWrite env st k).writeIdx = st.writeIdx + 1 := by
    unfold doWrite recordCall
    cases hok : env.writeOk st.writeIdx <;> cases k <;> simp [hok]
  constructor
  · rw [hwe, hidx2]
    simp [hidx]
  · have hfil : ((writeEvents (doWrite env st k).events).filter
        (fun e => e.ok)).length =
        ((writeEvents st.events).filter (fun e => e.ok)).length +
          (if env.writeOk st.writeIdx then 1 else 0) := by
      rw [hwe, List.filter_append]
      cases hok : env.writeOk st.writeIdx <;> simp [hok]
    rw [hfil]
    have hcu : (doWrite env st k).created + (doWrite env st k).updated =
        st.created + st.updated + (if env.writeOk st.writeIdx then 1 else 0) := by
      unfold doWrite recordCall
      cases hok : env.writeOk st.writeIdx <;> cases k <;> simp [hok] <;> omega
    rw [hcu, hcnt]

/-- One loop iteration preserves the counting invariant. -/
lemma countInv_syncOne (env : SinkEnv) (c : SFContact) (st : LoopState)
    (h : CountInv st) : CountInv (syncOneContact env st c) := by
  cases hE : c.Email with
  | none => simpa [syncOneContact, hE] using h
  | some e =>
    by_cases he : e = ""
    · simpa [syncOneContact, hE, he] using h
    · have h1 : CountInv (recordCall env st (.search e) true) := by
        obtain ⟨hidx, hcnt⟩ := h
        constructor
        · rw [recordCall_search_events]; simpa [recordCall] using hidx
        · rw [recordCall_search_events]; simpa [recordCall] using hcnt
      cases hs : env.search e with
      | some existingId =>
          simpa [syncOneContact, hE, he, hs] using
            countInv_doWrite env (recordCall env st (.search e) true)
              (.update existingId
                (mkHubSpotContactData c (recordCall env st (.search e) true).clock))
              rfl h1
      | none =>
          simpa [syncOneContact, hE, he, hs] using
            countInv_doWrite env (recordCall env st (.search e) true)
              (.create (mkHubSpotContactData c (recordCall env st (.search e) true).clock))
              rfl h1

/-- The write loop preserves the counting invariant. -/
lemma countInv_foldl (env : SinkEnv) (cs : List SFContact) :
    ∀ st : LoopState, CountInv st →
      CountInv (cs.foldl (syncOneContact env) st) := by
  induction cs with
  | nil => intro st h; exact h
  | cons c t ih => intro st h; exact ih _ (countInv_syncOne env c st h)

/-- One loop iteration adds exactly one write event when the email of
the contact is truthy, and none otherwise. -/
lemma syncOne_writeEvents_length (env : SinkEnv) (c : SFContact) (st : LoopState) :
    (writeEvents (syncOneContact env st c).events).length =
      (writeEvents st.events).length + (if strTruthy c.Email then 1 else 0) := by
  cases hE : c.Email with
  | none => simp [syncOneContact, hE, strTruthy]
  | some e =>
    by_cases he : e = ""
    · simp [syncOneContact, hE, he, strTruthy]
    · have hw : ∀ k, CallEvent.isWrite
          ⟨k, (recordCall env st (.search e) true).clock,
           env.writeOk (recordCall env st (.search e) true).writeIdx⟩ = true →
          (writeEvents (doWrite env (recordCall env st (.search e) true) k).events).length
            = (writeEvents st.events).length + 1 := by
        intro k hk
        rw [doWrite_events, writeEvents_append, recordCall_search_events]
        simp [writeEvents, hk]
      cases hs : env.search e with
      | some existingId =>
          rw [show syncOneContact env st c =
              doWrite env (recordCall env st (.search e) true)
                (.update existingId
                  (mkHubSpotContactData c (recordCall env st (.search e) true).clock))
            from by simp [syncOneContact, hE, he, hs]]
          rw [hw (.update existingId
            (mkHubSpotContactData c (recordCall env st (.search e) true).clock)) rfl]
          simp [strTruthy, hE, he]
      | none =>
          rw [show syncOneContact env st c =
              doWrite env (recordCall env st (.search e) true)
                (.create (mkHubSpotContactData c (recordCall env st (.search e) true).clock))
            from by simp [syncOneContact, hE, he, hs]]
          rw [hw (.create
            (mkHubSpotContactData c (recordCall env st (.search e) true).clock)) rfl]
          simp [strTruthy, hE, he]

/-- Folding the write loop over a candidate list adds one write event per
truthy-email candidate: a failed write never prevents later candidates
from being attempted. -/
lemma foldl_writeEvents_length (env : SinkEnv) (cs : List SFContact) :
    ∀ st : LoopState,
      (writeEvents ((cs.foldl (syncOneContact env) st).events)).length =
        (writeEvents st.events).length +
          cs.countP (fun c => strTruthy c.Email) := by
  induction cs with
  | nil => intro st; simp
  | cons c t ih =>
      intro st
      rw [List.foldl_cons, ih, syncOne_writeEvents_length]
      rw [List.countP_cons]
      by_cases hc : strTruthy c.Email
      · simp [hc]
        omega
      · simp [hc]

/-- When every sink lookup finds an existing contact, no loop iteration
ever takes the create branch. -/
lemma syncOne_created_allFound (env : SinkEnv)
    (hall : ∀ e, (env.search e).isSome = true) (c : SFContact) (st : LoopState) :
    (syncOneContact env st c).created = st.created := by
  cases hE : c.Email with
  | none => simp [syncOneContact, hE]
  | some e =>
    by_cases he : e = ""
    · simp [syncOneContact, hE, he]
    · cases hs : env.search e with
      | none => have := hall e; rw [hs] at this; simp at this
      | some existingId =>
          have hupd : ∀ st' id data,
              (doWrite env st' (SinkCallKind.update id data)).created = st'.created := by
            intro st' id data
            unfold doWrite recordCall
            cases hok : env.writeOk st'.writeIdx <;> simp [hok]
          simp [syncOneContact, hE, he, hs, hupd, recordCall]

/-- When every sink lookup hits, the whole loop leaves `created` at 0. -/
lemma foldl_created_allFound (env : SinkEnv)
    (hall : ∀ e, (env.search e).isSome = true) (cs : List SFContact) :
    ∀ st : LoopState,
      ((cs.foldl (syncOneContact env) st).created) = st.created := by
  induction cs with
  | nil => intro st; rfl
  | cons c t ih =>
      intro st
      rw [List.foldl_cons, ih, syncOne_created_allFound env hall]

/-! ## Enterprise engine: run-level helper and concrete inputs -/

/-- A token-present (full-tier) run with a successful Salesforce fetch:
the result components and the call trace come from the write loop. -/
lemma performEnterprise_token_eq (tok : Option String) (env : SinkEnv)
    (cs : List SFContact) (ht : strTruthy tok = true) :
    performEnterpriseBidirectionalSync tok env (.ok cs) =
      (.ok { salesforce_contacts_found := cs.length
             real_sample_contacts := (realSampleContacts cs).map
               (fun sc => { sc with sync_status := some "synced_to_hubspot" })
             hubspot_sync_attempted := true
             hubspot_created := (writeLoop env cs).created
             hubspot_updated := (writeLoop env cs).updated
             message := "REAL sync complete: " ++ toString (writeLoop env cs).created ++
               " created, " ++ toString (writeLoop env cs).updated ++ " updated in HubSpot" },
       (writeLoop env cs).events) := by
  simp [performEnterpriseBidirectionalSync, ht]

/-- Shorthand for a Salesforce record with the given id and email. -/
def mkSF (i em : String) : SFContact := ⟨i, some "U", none, some em, none, none⟩

/-- Two write candidates with distinct emails. -/
def cxC5contacts : List SFContact := [mkSF "s1" "a@x.com", mkSF "s2" "b@x.com"]

/-- Sink double in which every lookup hits, the first write call fails
(and every later one succeeds), and calls are instantaneous. -/
def cxEnvFailFirst : SinkEnv := ⟨fun _ => some "hx", fun n => n != 0, fun _ => 0⟩

/-- Sink double in which every lookup hits, all writes succeed, and calls
are instantaneous. -/
def cxEnvAllFound : SinkEnv := ⟨fun _ => some "hid", fun _ => true, fun _ => 0⟩

/-- Eight fetched records, four of which carry an excluded-domain email. -/
def cxDemo8 : List SFContact :=
  [mkSF "d1" "a@ok1.com", mkSF "d2" "b@edge.com", mkSF "d3" "c@ok2.com",
   mkSF "d4" "d@burlington.com", mkSF "d5" "e@pyramid.net", mkSF "d6" "f@ok3.com",
   mkSF "d7" "g@dickenson.com", mkSF "d8" "h@ok4.com"]

/-- Eight fetched records that all pass the sample filter. -/
def cxDemoPlain : List SFContact :=
  [mkSF "p1" "u1@x.com", mkSF "p2" "u2@x.com", mkSF "p3" "u3@x.com",
   mkSF "p4" "u4@x.com", mkSF "p5" "u5@x.com", mkSF "p6" "u6@x.com",
   mkSF "p7" "u7@x.com", mkSF "p8" "u8@x.com"]

/-! ## C5 — bounded, paced writes -/

/-- C5 (counterexample): a full-tier run over two candidates in which the
first write call fails: the pause is skipped (the `sleep(200)` sits after
the write inside the `try`), so the two consecutive write calls are
issued 0ms apart — the claimed unconditional ≥200ms spacing between
consecutive sink write calls is false. -/
theorem C5_failed_write_skips_pause :
    (writeEvents (performEnterpriseBidirectionalSync (some "tok") cxEnvFailFirst
        (.ok cxC5contacts)).2).map (fun e => e.time) = [0, 0] ∧
    (writeEvents (performEnterpriseBidirectionalSync (some "tok") cxEnvFailFirst
        (.ok cxC5contacts)).2).map (fun e => e.ok) = [false, true] := by
  decide

/-- C5 (amended): every full-tier run issues at most 10 create/update
calls (the loop runs over `slice(0, 10)`, one write per candidate), and
consecutive write calls are ≥200ms apart whenever the earlier call
succeeded — the 200ms pause is enforced only after a successful write,
so nothing separates the call following a failed write. -/
theorem C5_at_most_ten_paced_writes (cs : List SFContact) (env : SinkEnv)
    (tok : Option String) (ht : strTruthy tok = true) :
    (writeEvents (performEnterpriseBidirectionalSync tok env (.ok cs)).2).length ≤ 10 ∧
    List.Chain' spacedRel
      (writeEvents (performEnterpriseBidirectionalSync tok env (.ok cs)).2) := by
  have htr : (performEnterpriseBidirectionalSync tok env (.ok cs)).2 =
      (writeLoop env cs).events := by
    rw [performEnterprise_token_eq tok env cs ht]
  rw [htr]
  constructor
  · have hlen := foldl_writeEvents_length env (cs.take 10) initLoopState
    have hinit : (writeEvents initLoopState.events).length = 0 := by
      simp [initLoopState, writeEvents]
    unfold writeLoop
    rw [hlen, hinit]
    have h1 : (cs.take 10).countP (fun c => strTruthy c.Email) ≤ (cs.take 10).length :=
      List.countP_le_length _
    have h2 : (cs.take 10).length ≤ 10 := List.length_take_le 10 cs
    omega
  · exact (pacedInv_foldl env (cs.take 10) initLoopState pacedInv_init).1

/-- C5 (witness): the amended theorem applied to the two-candidate run
with a failing first write. -/
theorem C5_at_most_ten_paced_writes_witness :
    strTruthy (some "tok") = true ∧
    ((writeEvents (performEnterpriseBidirectionalSync (some "tok") cxEnvFailFirst
        (.ok cxC5contacts)).2).length ≤ 10 ∧
     List.Chain' spacedRel
       (writeEvents (performEnterpriseBidirectionalSync (some "tok") cxEnvFailFirst
         (.ok cxC5contacts)).2)) :=
  ⟨by decide,
   C5_at_most_ten_paced_writes cxC5contacts cxEnvFailFirst (some "tok") (by decide)⟩

/-! ## C6 — runs without sink credentials -/

/-- C6 (counterexample): a fetch of 8 records, all with truthy emails,
four of which carry an excluded domain: the no-token run makes zero sink
calls but its sample list has only 4 entries, not the claimed exactly 5;
and with sink credentials present the same fetch triggers 8 write calls,
so the "zero write calls regardless of sink credentials" part fails too. -/
theorem C6_eight_fetched_fewer_samples :
    cxDemo8.length = 8 ∧
    (∀ c ∈ cxDemo8, strTruthy c.Email = true) ∧
    (resultSamples (performEnterpriseBidirectionalSync none cxEnvAllFound
        (.ok cxDemo8)).1).length = 4 ∧
    (performEnterpriseBidirectionalSync none cxEnvAllFound (.ok cxDemo8)).2 = [] ∧
    (writeEvents (performEnterpriseBidirectionalSync (some "tok") cxEnvAllFound
        (.ok cxDemo8)).2).length = 8 := by
  decide

/-- C6 (amended): the only no-write mode is the run without sink
credentials (a falsy HubSpot token): it makes no sink call at all and
returns the fetched count plus the sample list, which is the client-side
truncation to 5 of the records that pass the sample email filter — so it
has exactly 5 entries precisely when at least 5 fetched records pass the
filter, and fewer otherwise. -/
theorem C6_no_token_no_writes (cs : List SFContact) (env : SinkEnv)
    (h5 : 5 ≤ (cs.filter (fun c => emailPassesFilter c.Email)).length) :
    performEnterpriseBidirectionalSync none env (.ok cs) =
      (.ok { salesforce_contacts_found := cs.length
             real_sample_contacts := realSampleContacts cs
             hubspot_sync_attempted := false
             hubspot_created := 0
             hubspot_updated := 0
             message := "Salesforce data loaded successfully" }, []) ∧
    (realSampleContacts cs).length = 5 := by
  constructor
  · simp [performEnterpriseBidirectionalSync, strTruthy]
  · simp only [realSampleContacts, List.length_map, List.length_take]
    omega

/-- C6 (witness): the amended theorem applied to 8 records that all pass
the filter. -/
theorem C6_no_token_no_writes_witness :
    5 ≤ (cxDemoPlain.filter (fun c => emailPassesFilter c.Email)).length ∧
    (performEnterpriseBidirectionalSync none cxEnvAllFound (.ok cxDemoPlain) =
      (.ok { salesforce_contacts_found := cxDemoPlain.length
             real_sample_contacts := realSampleContacts cxDemoPlain
             hubspot_sync_attempted := false
             hubspot_created := 0
             hubspot_updated := 0
             message := "Salesforce data loaded successfully" }, []) ∧
     (realSampleContacts cxDemoPlain).length = 5) :=
  ⟨by decide, C6_no_token_no_writes cxDemoPlain cxEnvAllFound (by decide)⟩

/-! ## C7 — per-contact write failures are non-fatal -/

/-- C7: a full-tier run with any pattern of per-contact write failures
still returns a normal (non-error) result; every candidate among the
first 10 with a truthy email is attempted exactly once (a failed write
never aborts the rest of the batch), and the returned
`created + updated` equals the number of successful write calls — so
failures surface only as lower counts, never as a run-level error. -/
theorem C7_write_failures_skipped (cs : List SFContact) (env : SinkEnv)
    (tok : Option String) (ht : strTruthy tok = true) :
    ∃ r : SyncResults,
      (performEnterpriseBidirectionalSync tok env (.ok cs)).1 = .ok r ∧
      (writeEvents (performEnterpriseBidirectionalSync tok env (.ok cs)).2).length =
        (cs.take 10).countP (fun c => strTruthy c.Email) ∧
      r.hubspot_created + r.hubspot_updated =
        ((writeEvents (performEnterpriseBidirectionalSync tok env (.ok cs)).2).filter
            (fun e => e.ok)).length := by
  rw [performEnterprise_token_eq tok env cs ht]
  refine ⟨_, rfl, ?_, ?_⟩
  · show (writeEvents (writeLoop env cs).events).length = _
    unfold writeLoop
    rw [foldl_writeEvents_length env (cs.take 10) initLoopState]
    simp [initLoopState, writeEvents]
  · show (writeLoop env cs).created + (writeLoop env cs).updated = _
    exact (countInv_foldl env (cs.take 10) initLoopState countInv_init).2

/-- C7 (witness): the theorem applied to the run whose first write call
fails: both candidates are still attempted and only the counts drop. -/
theorem C7_write_failures_skipped_witness :
    strTruthy (some "tok") = true ∧
    (∃ r : SyncResults,
      (performEnterpriseBidirectionalSync (some "tok") cxEnvFailFirst
          (.ok cxC5contacts)).1 = .ok r ∧
      (writeEvents (performEnterpriseBidirectionalSync (some "tok") cxEnvFailFirst
          (.ok cxC5contacts)).2).length =
        (cxC5contacts.take 10).countP (fun c => strTruthy c.Email) ∧
      r.hubspot_created + r.hubspot_updated =
        ((writeEvents (performEnterpriseBidirectionalSync (some "tok") cxEnvFailFirst
            (.ok cxC5contacts)).2).filter (fun e => e.ok)).length) :=
  ⟨by decide,
   C7_write_failures_skipped cxC5contacts cxEnvFailFirst (some "tok") (by decide)⟩

/-! ## C9 — idempotence against an all-hit sink -/

/-- C9: against a sink whose lookup always finds an existing record,
every write candidate takes the update branch, so a full-tier run
reports `created = 0`; and re-running the engine with the same contact
set and sink double reproduces the same `updated` count (the engine is a
deterministic function of its inputs). -/
theorem C9_second_run_creates_nothing (cs : List SFContact) (env : SinkEnv)
    (tok : Option String) (ht : strTruthy tok = true)
    (hall : ∀ e, (env.search e).isSome = true) :
    ∃ r₁ r₂ : SyncResults,
      (performEnterpriseBidirectionalSync tok env (.ok cs)).1 = .ok r₁ ∧
      (performEnterpriseBidirectionalSync tok env (.ok cs)).1 = .ok r₂ ∧
      r₂.hubspot_updated = r₁.hubspot_updated ∧
      r₁.hubspot_created = 0 ∧ r₂.hubspot_created = 0 := by
  rw [performEnterprise_token_eq tok env cs ht]
  have hz : (writeLoop env cs).created = 0 := by
    unfold writeLoop
    rw [foldl_created_allFound env hall (cs.take 10) initLoopState]
    rfl
  exact ⟨_, _, rfl, rfl, rfl, hz, hz⟩

/-- C9 (witness): the theorem applied to an all-hit, all-succeed sink. -/
theorem C9_second_run_creates_nothing_witness :
    strTruthy (some "tok") = true ∧
    (∀ e, (cxEnvAllFound.search e).isSome = true) ∧
    (∃ r₁ r₂ : SyncResults,
      (performEnterpriseBidirectionalSync (some "tok") cxEnvAllFound
          (.ok cxDemoPlain)).1 = .ok r₁ ∧
      (performEnterpriseBidirectionalSync (some "tok") cxEnvAllFound
          (.ok cxDemoPlain)).1 = .ok r₂ ∧
      r₂.hubspot_updated = r₁.hubspot_updated ∧
      r₁.hubspot_created = 0 ∧ r₂.hubspot_created = 0) :=
  ⟨by decide, fun e => rfl,
   C9_second_run_creates_nothing cxDemoPlain cxEnvAllFound (some "tok")
     (by decide) (fun e => rfl)⟩

/-! ## C10 — the sample-list domain filter -/

/-- C10: in every run the sample list carries exactly the emails of the
first 5 fetched records passing the sample filter (truthy email, none of
edge.com / burlington.com / pyramid.net / dickenson.com), so 8 fetched
records can yield only 4 samples; and the filter does not reach the
write loop: in the concrete 8-record run the 4 excluded-domain contacts
still each get a write call. -/
theorem C10_sample_filter_only :
    (∀ (cs : List SFContact) (env : SinkEnv) (tok : Option String),
        (resultSamples (performEnterpriseBidirectionalSync tok env (.ok cs)).1).map
            (fun sc => sc.email) =
          ((cs.filter (fun c => emailPassesFilter c.Email)).take 5).map
            (fun c => c.Email)) ∧
    (resultSamples (performEnterpriseBidirectionalSync (some "tok") cxEnvAllFound
        (.ok cxDemo8)).1).length = 4 ∧
    5 ≤ cxDemo8.length ∧
    (writeEvents (performEnterpriseBidirectionalSync (some "tok") cxEnvAllFound
        (.ok cxDemo8)).2).countP
        (fun e => match e.kind with
          | .search _ => false
          | .create d =>
              jsIncludes d.email "edge.com" || jsIncludes d.email "burlington.com" ||
                jsIncludes d.email "pyramid.net" || jsIncludes d.email "dickenson.com"
          | .update _ d =>
              jsIncludes d.email "edge.com" || jsIncludes d.email "burlington.com" ||
                jsIncludes d.email "pyramid.net" || jsIncludes d.email "dickenson.com") = 4 := by
  refine ⟨?_, by decide, by decide, by decide⟩
  intro cs env tok
  cases htok : strTruthy tok <;>
    simp [performEnterpriseBidirectionalSync, htok, resultSamples,
      realSampleContacts, List.map_map] <;>
    refine congrArg (List.take 5) (List.map_congr_left ?_) <;>
    intro a ha <;>
    simp [toSampleContact, Function.comp]
